import Mathlib

/-!
Verification of the neurotempo signal-processing and decision pipeline.

The Python sources are shallowly embedded over `ℚ` (the code computes with
IEEE doubles on values where the two agree in every scenario used here,
e.g. exact dyadic constants and small rationals).  External library calls
(BrainFlow band powers, `np.fft`, `DataFilter.get_oxygen_level`, board
reads) are modelled as oracle inputs to the per-tick step functions, since
they are third-party collaborators, not repository code.  Debug-only
fields of the Python classes (`last_reject_reason`, `last_valid_eeg_count`)
do not feed back into any computation and are omitted from the state.
-/

set_option maxRecDepth 2000

namespace Neurotempo

/-- Python's builtin `round`: round half to even, as used by
`int(round(...))` in `brainflow_muse.py`. -/
def pyRound (q : ℚ) : ℤ :=
  let f := ⌊q⌋
  let r := q - (f : ℚ)
  if r < 1/2 then f
  else if 1/2 < r then f + 1
  else if f % 2 = 0 then f else f + 1

/-- Clamping to `[0,1]`: `np.clip(x, 0.0, 1.0)` in `brainflow_muse.py` and
`_clamp01` in `sensor_quality.py` (both compute `max(0, min(1, x))`). -/
def clip01 (x : ℚ) : ℚ := max 0 (min 1 x)

theorem clip01_nonneg (x : ℚ) : 0 ≤ clip01 x := le_max_left 0 _

theorem clip01_le_one (x : ℚ) : clip01 x ≤ 1 :=
  max_le (by norm_num) (min_le_left 1 x)

/-- Data model of `brain_api.BrainMetrics`: `heart_rate`/`spo2` are
`Optional[int]` (`none` models Python `None`). -/
structure BrainMetrics where
  focus : ℚ
  fatigue : ℚ
  heart_rate : Option ℤ
  spo2 : Option ℤ
deriving DecidableEq, Repr

/-- The `BrainMetrics(0.0, 0.0, 0, 0)` snapshot built throughout
`brainflow_muse.py` (the integer literal `0`, not `None`). -/
def zeroMetrics : BrainMetrics := ⟨0, 0, some 0, some 0⟩

/-- Relative band powers as unpacked from
`DataFilter.get_avg_band_powers` in `read_metrics`. -/
structure Bands where
  delta : ℚ
  theta : ℚ
  alpha : ℚ
  beta : ℚ
  gamma : ℚ
deriving DecidableEq, Repr

/-- Embeds `BrainFlowMuseBrain._noise_sanity_gate`; `true` means the
sample is accepted. -/
def noiseSanityGate (theta alpha beta : ℚ) : Bool :=
  let at_ := alpha + theta
  if beta > 11/20 ∧ at_ < 1/5 then false
  else if beta > 3/4 then false
  else true

/-- Embeds `BrainFlowMuseBrain._focus_from_bands`. -/
def focusFromBands (theta alpha beta : ℚ) : ℚ :=
  let raw := (23/20) * beta + (1/4) * alpha - (9/10) * theta
  let x := (raw + 1/4) / (3/4)
  clip01 x

/-- Embeds `BrainFlowMuseBrain._fatigue_from_bands`. -/
def fatigueFromBands (theta alpha beta : ℚ) : ℚ :=
  let raw := (11/10) * theta + (1/5) * alpha - (3/5) * beta
  let x := (raw + 1/10) / (7/10)
  clip01 x

/-- Instance attribute `_debounce_needed = 3` of `BrainFlowMuseBrain`. -/
def debounceNeeded : ℕ := 3

/-- Instance attribute `_warmup_reads_needed = 4` of `BrainFlowMuseBrain`. -/
def warmupReadsNeeded : ℕ := 4

/-- Worn/debounce portion of the `BrainFlowMuseBrain` mutable state:
`last_worn`, `_worn_hits`, `_not_worn_hits`, `_warmup_reads_left`. -/
structure WornState where
  lastWorn : Bool
  wornHits : ℕ
  notWornHits : ℕ
  warmupLeft : ℕ
deriving DecidableEq, Repr

/-- Embeds `BrainFlowMuseBrain._vote_worn` (counter update, debounced
flip, warm-up restart on a flip). -/
def voteWorn (wornNow : Bool) (s : WornState) : WornState :=
  let s1 :=
    if wornNow then { s with wornHits := s.wornHits + 1, notWornHits := 0 }
    else { s with notWornHits := s.notWornHits + 1, wornHits := 0 }
  let s2 :=
    if s1.wornHits ≥ debounceNeeded then { s1 with lastWorn := true }
    else if s1.notWornHits ≥ debounceNeeded then { s1 with lastWorn := false }
    else s1
  if s2.lastWorn ≠ s.lastWorn then { s2 with warmupLeft := warmupReadsNeeded }
  else s2

/-- Instance attribute `_grace_hold_sec = 2.5` of `BrainFlowMuseBrain`. -/
def graceHoldSec : ℚ := 5/2

/-- Embeds the conversion in `_begin_grace_hold`:
`int(max(1, round(self._grace_hold_sec / max(self.window_sec, 0.5))))`. -/
def graceHoldReads (windowSec : ℚ) : ℕ :=
  (max 1 (pyRound (graceHoldSec / max windowSec (1/2)))).toNat

/-- Bin frequencies of `np.fft.rfftfreq(n, d=1/fs)`: bin `k` sits at
`k * fs / n` Hz (these values are exact in double precision). -/
def rfreq (n fs k : ℕ) : ℚ := (k * fs : ℚ) / n

/-- Bins of the physiological mask
`(freqs >= lo) & (freqs <= hi)` in `_estimate_hr_from_ppg`;
`rfftfreq` yields `n / 2 + 1` bins for an even-length window. -/
def bandBins (n fs : ℕ) (lo hi : ℚ) : List ℕ :=
  (List.range (n / 2 + 1)).filter fun k => lo ≤ rfreq n fs k ∧ rfreq n fs k ≤ hi

/-- Embeds `BrainFlowMuseBrain._estimate_hr_from_ppg`.  The magnitude
spectrum `spec` (|rfft| of the detrended, Hamming-windowed signal) is an
oracle argument: the FFT itself is `numpy` library code.  `np.argmax`
returns the first maximising bin, which is also `List.argmax`'s tie rule. -/
def estimateHR (sigSize fs : ℕ) (lo hi : ℚ) (spec : ℕ → ℚ) : ℤ :=
  if sigSize < 2 * fs then 0
  else
    match (bandBins sigSize fs lo hi).argmax spec with
    | none => 0
    | some k =>
      let hr := pyRound (rfreq sigSize fs k * 60)
      if hr < 35 ∨ hr > 200 then 0 else hr

/-- PPG situation on one tick, as distinguished by `read_metrics`
lines 364-386: no PPG channels at all, an unavailable/short window, a
single-channel read (`ir is None`, SpO2 impossible), or a two-channel
read (the IR spectrum drives HR; `oxy` is the oracle result of
`DataFilter.get_oxygen_level`, `none` modelling Python `None`). -/
inductive PpgInput where
  | noChannels
  | notEnoughData
  | singleChannel (sigSize : ℕ) (spec : ℕ → ℚ)
  | dualChannel (sigSize : ℕ) (spec : ℕ → ℚ) (oxy : Option ℚ)

/-- Vitals section of `read_metrics`: `hr` and `spo2` start at `0` and
are only overwritten when the estimators succeed; SpO2 is additionally
range-gated to `[70, 100]`. -/
def vitals (fs : ℕ) (lo hi : ℚ) (p : PpgInput) : ℤ × ℤ :=
  match p with
  | .noChannels => (0, 0)
  | .notEnoughData => (0, 0)
  | .singleChannel n spec => (estimateHR n fs lo hi spec, 0)
  | .dualChannel n spec oxy =>
    let hr := estimateHR n fs lo hi spec
    if hr > 0 then
      let s := match oxy with
        | some o => pyRound o
        | none => 0
      let s2 := if s < 70 ∨ s > 100 then 0 else s
      (hr, s2)
    else (hr, 0)

/-- Append to a `deque(maxlen := n)`: push right, evict from the left
once the length exceeds `n`. -/
def pushCap (n : ℕ) (x : ℚ) (l : List ℚ) : List ℚ :=
  let l2 := l ++ [x]
  if n < l2.length then l2.drop (l2.length - n) else l2

/-- Mean of a trailing history (`np.mean` over a nonempty deque). -/
def listMean (l : List ℚ) : ℚ := l.sum / l.length

/-- Mutable per-connection state of `BrainFlowMuseBrain` used by
`read_metrics`: `_focus_hist`, `_fatigue_hist`, the worn/debounce
block, `_grace_reads_left`, `_last_good`, and `smooth_n`. -/
structure MuseState where
  focusHist : List ℚ
  fatigueHist : List ℚ
  worn : WornState
  graceReadsLeft : ℕ
  lastGood : BrainMetrics
  smoothN : ℕ
deriving DecidableEq, Repr

/-- Guarded re-arm of the hold used at `read_metrics` lines 311-312,
323-324 and 342-343: `if self._grace_reads_left == 0 and
(self._last_good.heart_rate != 0 or self._last_good.focus != 0.0):
self._begin_grace_hold()`. -/
def armGraceIfIdle (w : ℚ) (s : MuseState) : MuseState :=
  if s.graceReadsLeft = 0 ∧ (s.lastGood.heart_rate ≠ some 0 ∨ s.lastGood.focus ≠ 0) then
    { s with graceReadsLeft := graceHoldReads w }
  else s

/-- Embeds `BrainFlowMuseBrain._grace_return`. -/
def graceReturn (s : MuseState) : BrainMetrics × MuseState :=
  if 0 < s.graceReadsLeft then
    (s.lastGood, { s with graceReadsLeft := s.graceReadsLeft - 1 })
  else (zeroMetrics, s)

/-- Per-tick input to `read_metrics`: either the board window was
`None`/too short, or a full window arrived, summarised by the number of
channels passing `_channel_valid_mask`, the oracle band powers from
`DataFilter.get_avg_band_powers`, and the PPG situation. -/
inductive ReadInput where
  | noData
  | dataWith (validCount : ℕ) (bands : Bands) (ppg : PpgInput)

/-- Embeds `BrainFlowMuseBrain.read_metrics` (lines 300-398) for one
tick on a connected board, with `w` the configured `window_sec`. -/
def readTick (w : ℚ) (inp : ReadInput) (s : MuseState) : BrainMetrics × MuseState :=
  match inp with
  | .noData => graceReturn (armGraceIfIdle w s)
  | .dataWith validCount bands ppg =>
    let wornNow := decide (0 < validCount)
    let s1 : MuseState := { s with worn := voteWorn wornNow s.worn }
    if s1.worn.lastWorn = false then
      let s2 := armGraceIfIdle w s1
      graceReturn { s2 with focusHist := [], fatigueHist := [] }
    else if noiseSanityGate bands.theta bands.alpha bands.beta = false then
      let s2 : MuseState := { s1 with worn := voteWorn false s1.worn }
      let s3 := armGraceIfIdle w s2
      graceReturn { s3 with focusHist := [], fatigueHist := [] }
    else if 0 < s1.worn.warmupLeft then
      (zeroMetrics,
        { s1 with worn := { s1.worn with warmupLeft := s1.worn.warmupLeft - 1 },
                  focusHist := [], fatigueHist := [] })
    else
      let focus := focusFromBands bands.theta bands.alpha bands.beta
      let fatigue := fatigueFromBands bands.theta bands.alpha bands.beta
      let fh := pushCap s1.smoothN focus s1.focusHist
      let gh := pushCap s1.smoothN fatigue s1.fatigueHist
      let hs := vitals 64 (4/5) 3 ppg
      let out : BrainMetrics := ⟨listMean fh, listMean gh, some hs.1, some hs.2⟩
      (out, { s1 with focusHist := fh, fatigueHist := gh,
                      lastGood := out, graceReadsLeft := 0 })

/-- Data model of `sensor_quality.SensorStatus` (one score in `[0,1]`
per electrode, canonical order TP9, AF7, AF8, TP10). -/
structure SensorStatus where
  TP9 : ℚ
  AF7 : ℚ
  AF8 : ℚ
  TP10 : ℚ
deriving DecidableEq, Repr

/-- Per-channel body of `MuseSensorQuality._read_from_eeg_variance`
for one channel's standard deviation, with the constructor defaults
`min_std = 3.0`, `good_std = 14.0`, `too_high_std = 80.0`. -/
def scoreOfStd (minStd goodStd tooHighStd : ℚ) (s : ℚ) : ℚ :=
  if s ≤ minStd then 0
  else
    let base := clip01 ((s - minStd) / max (1/1000000) (goodStd - minStd))
    if s > goodStd then
      let t := clip01 ((s - goodStd) / max (1/1000000) (tooHighStd - goodStd))
      clip01 (base * (1 - (3/5) * t))
    else base

/-- Embeds `MuseSensorQuality._read_from_eeg_variance` on the per-channel
standard deviations of the EEG window (`np.std(eeg, axis=1)` is the
oracle input); a missing channel (`i >= len(stds)`) scores `0`. -/
def readFromEegVariance (minStd goodStd tooHighStd : ℚ) (stds : List ℚ) : SensorStatus :=
  let score := fun i =>
    match stds.get? i with
    | none => 0
    | some s => scoreOfStd minStd goodStd tooHighStd s
  ⟨score 0, score 1, score 2, score 3⟩

/-- Break-policy configuration read from settings in
`SessionScreen.__init__` (defaults in parentheses): `ema_alpha` (0.18),
`grace_s` (120), `low_required_s` (25), `cooldown_s` (480),
`fatigue_gate` (0.45), `threshold_multiplier` (0.70), `threshold_min`
(0.25), `threshold_max` (0.60), plus the calibrated `baseline_focus`. -/
structure SessionCfg where
  emaAlpha : ℚ
  graceS : ℕ
  lowRequiredS : ℕ
  cooldownS : ℕ
  fatigueGate : ℚ
  thresholdMultiplier : ℚ
  thresholdMin : ℚ
  thresholdMax : ℚ
  baselineFocus : ℚ
deriving DecidableEq, Repr

/-- Embeds `SessionScreen._low_threshold`:
`raw = baseline * multiplier; max(min_t, min(max_t, raw))`. -/
def lowThreshold (c : SessionCfg) : ℚ :=
  let raw := c.baselineFocus * c.thresholdMultiplier
  max c.thresholdMin (min c.thresholdMax raw)

/-- Clamp as worded by the spec: `clamp(x, lo, hi)`. -/
def clampSpec (x lo hi : ℚ) : ℚ := max lo (min hi x)

/-- Mutable state of `SessionScreen` touched by `update_metrics` (UI
widgets, charts and the on-disk logger are the excluded collaborators). -/
structure SessionState where
  focusEma : ℚ
  fatigueEma : ℚ
  lowSeconds : ℕ
  lastBreakTs : ℚ
  breaks : ℕ
  signalOk : Bool
  warmupSeen : ℕ
  lastHr : ℤ
  lastSpo2 : ℤ
  samples : ℕ
  focusSum : ℚ
  startTs : ℚ
deriving DecidableEq, Repr

/-- Embeds `SessionScreen._render_not_worn` (state effects only). -/
def renderNotWorn (s : SessionState) : SessionState :=
  { s with signalOk := false, lowSeconds := 0,
           focusEma := 0, fatigueEma := 0, lastHr := 0, lastSpo2 := 0 }

/-- Zero-snapshot test at `update_metrics` line 278:
`float(m.focus) == 0.0 and float(m.fatigue) == 0.0 and
int(m.heart_rate or 0) == 0 and int(m.spo2 or 0) == 0`
(`x or 0` maps both `None` and `0` to `0`). -/
def isAllZero (m : BrainMetrics) : Bool :=
  m.focus == 0 && m.fatigue == 0 && m.heart_rate.getD 0 == 0 && m.spo2.getD 0 == 0

/-- Embeds `SessionScreen.update_metrics` for one timer tick at wall
time `now`; the input is `none` when `read_metrics` raised
`MuseNotReady`, else the returned snapshot. -/
def updateMetrics (c : SessionCfg) (now : ℚ) (inp : Option BrainMetrics)
    (s : SessionState) : SessionState :=
  match inp with
  | none => renderNotWorn s
  | some m =>
    if isAllZero m then renderNotWorn s
    else
      let s1 : SessionState := { s with signalOk := true, warmupSeen := s.warmupSeen + 1 }
      if s1.warmupSeen ≤ 2 then s1
      else
        let s2 : SessionState :=
          { s1 with samples := s1.samples + 1, focusSum := s1.focusSum + m.focus,
                    lastHr := m.heart_rate.getD s1.lastHr,
                    lastSpo2 := m.spo2.getD s1.lastSpo2 }
        let a := c.emaAlpha
        let s3 : SessionState :=
          { s2 with focusEma := (1 - a) * s2.focusEma + a * m.focus,
                    fatigueEma := (1 - a) * s2.fatigueEma + a * m.fatigue }
        let elapsed := now - s3.startTs
        let inGrace := elapsed < (c.graceS : ℚ)
        let inCooldown :=
          if 0 < s3.lastBreakTs then now - s3.lastBreakTs < (c.cooldownS : ℚ) else False
        let lowAndFatigued :=
          s3.focusEma < lowThreshold c ∧ s3.fatigueEma ≥ c.fatigueGate
        if ¬inGrace ∧ ¬inCooldown then
          let ls := if lowAndFatigued then s3.lowSeconds + 1 else 0
          if ls ≥ c.lowRequiredS then
            { s3 with lowSeconds := 0, lastBreakTs := now, breaks := s3.breaks + 1 }
          else { s3 with lowSeconds := ls }
        else { s3 with lowSeconds := 0 }

/-- Break-policy portion of the session state (`low_seconds`,
`last_break_ts` with `0` meaning "never", `breaks_triggered`), for runs
driven directly by the per-tick low-and-fatigued condition. -/
structure BreakState where
  lowSeconds : ℕ
  lastBreakTs : ℕ
  breaks : ℕ
deriving DecidableEq, Repr

/-- Break logic of `update_metrics` (lines 313-337) at integer session
time `now` (the 1000 ms `QTimer` fires at `t = 1, 2, 3, ...` seconds
after `start_ts`), with `lf` the tick's
`(focus_ema < threshold) and (fatigue_ema >= fatigue_gate)` value. -/
def breakStep (graceS lowRequiredS cooldownS now : ℕ) (lf : Bool)
    (b : BreakState) : BreakState :=
  let inGrace := now < graceS
  let inCooldown := if 0 < b.lastBreakTs then now - b.lastBreakTs < cooldownS else false
  if ¬inGrace ∧ ¬inCooldown then
    let ls := if lf then b.lowSeconds + 1 else 0
    if ls ≥ lowRequiredS then ⟨0, now, b.breaks + 1⟩
    else ⟨ls, b.lastBreakTs, b.breaks⟩
  else ⟨0, b.lastBreakTs, b.breaks⟩

/-- Run of the break logic over the first `n` timer ticks, tick `i`
happening at session time `i` seconds with condition value `lf i`. -/
def breakRun (graceS lowRequiredS cooldownS : ℕ) (lf : ℕ → Bool) : ℕ → BreakState
  | 0 => ⟨0, 0, 0⟩
  | n + 1 =>
    breakStep graceS lowRequiredS cooldownS (n + 1) (lf (n + 1))
      (breakRun graceS lowRequiredS cooldownS lf n)

/-- Session configuration with every default from
`SessionScreen.__init__` and the C9 scenario baseline `0.60`. -/
def cfgDefault : SessionCfg :=
  ⟨9/50, 120, 25, 480, 9/20, 7/10, 1/4, 3/5, 3/5⟩

/-- Session state right after `SessionScreen.__init__` with
`baseline_focus = 0.60` (`focus_ema = baseline`, `fatigue_ema = 0.25`,
counters zero, `start_ts` taken as time origin). -/
def sessInit : SessionState :=
  ⟨3/5, 1/4, 0, 0, 0, true, 0, 0, 0, 0, 0, 0⟩

/-- C5: for every tuple of relative band powers, each nonnegative and
summing to 1, the scorer's linear-combination-plus-clamp formulas give
focus and fatigue in `[0,1]`. -/
theorem focus_fatigue_in_unit_interval (d t a b g : ℚ)
    (hd : 0 ≤ d) (ht : 0 ≤ t) (ha : 0 ≤ a) (hb : 0 ≤ b) (hg : 0 ≤ g)
    (hsum : d + t + a + b + g = 1) :
    0 ≤ focusFromBands t a b ∧ focusFromBands t a b ≤ 1 ∧
    0 ≤ fatigueFromBands t a b ∧ fatigueFromBands t a b ≤ 1 :=
  ⟨clip01_nonneg _, clip01_le_one _, clip01_nonneg _, clip01_le_one _⟩

/-- Witness for C5 at the extreme input `beta = 1`, all other bands `0`. -/
theorem focus_fatigue_in_unit_interval_witness :
    0 ≤ focusFromBands 0 0 1 ∧ focusFromBands 0 0 1 ≤ 1 ∧
    0 ≤ fatigueFromBands 0 0 1 ∧ fatigueFromBands 0 0 1 ≤ 1 :=
  focus_fatigue_in_unit_interval 0 0 0 1 0 (by norm_num) (by norm_num)
    (by norm_num) (by norm_num) (by norm_num) (by norm_num)

/-- C9: the break policy's low-focus threshold equals
`clamp(baseline_focus * threshold_multiplier, threshold_min,
threshold_max)`, and for baseline `0.60`, multiplier `0.70`, min `0.25`,
max `0.60` it equals `0.42`. -/
theorem low_threshold_clamp :
    (∀ c : SessionCfg,
      lowThreshold c =
        clampSpec (c.baselineFocus * c.thresholdMultiplier) c.thresholdMin c.thresholdMax) ∧
    lowThreshold cfgDefault = 21/50 :=
  ⟨fun _ => rfl, by norm_num [lowThreshold, cfgDefault, max_def, min_def]⟩

/-- C7: from a stable `NOT_WORN` tracked state one worn reading does not
flip the state, three consecutive worn readings do, symmetrically for
flipping back, and any opposite-direction reading resets the opposite
consecutive-hit counter. -/
theorem worn_debounce :
    (∀ nh wl : ℕ, (voteWorn true ⟨false, 0, nh, wl⟩).lastWorn = false) ∧
    (∀ nh wl : ℕ,
      (voteWorn true (voteWorn true (voteWorn true ⟨false, 0, nh, wl⟩))).lastWorn = true) ∧
    (∀ wh wl : ℕ, (voteWorn false ⟨true, wh, 0, wl⟩).lastWorn = true) ∧
    (∀ wh wl : ℕ,
      (voteWorn false (voteWorn false (voteWorn false ⟨true, wh, 0, wl⟩))).lastWorn = false) ∧
    (∀ s : WornState, (voteWorn false s).wornHits = 0 ∧ (voteWorn true s).notWornHits = 0) := by
  refine ⟨fun nh wl => rfl, fun nh wl => rfl, fun wh wl => rfl, fun wh wl => rfl, fun s => ⟨?_, ?_⟩⟩
  · simp only [voteWorn]
    split_ifs <;> simp_all
  · simp only [voteWorn]
    split_ifs <;> simp_all

/-- Counterexample for C6: with three channels at extreme standard
deviation (1000) and the fourth in the good range (std 14), the fourth
channel scores 1, not 0 — no global-noise override exists in
`_read_from_eeg_variance`. -/
theorem no_global_noise_override_counterexample :
    readFromEegVariance 3 14 80 [1000, 1000, 1000, 14] =
      { TP9 := 2/5, AF7 := 2/5, AF8 := 2/5, TP10 := 1 } ∧
    (readFromEegVariance 3 14 80 [1000, 1000, 1000, 14]).TP10 ≠ 0 := by
  norm_num [readFromEegVariance, scoreOfStd, clip01, List.get?, max_def, min_def,
    SensorStatus.mk.injEq]

/-- C6 amended: each electrode's quality score is a function of that
channel's own standard deviation alone; other channels' extreme values
never force it to 0. -/
theorem channel_scores_independent (s0 s1 s2 s3 : ℚ) :
    readFromEegVariance 3 14 80 [s0, s1, s2, s3] =
      { TP9 := scoreOfStd 3 14 80 s0, AF7 := scoreOfStd 3 14 80 s1,
        AF8 := scoreOfStd 3 14 80 s2, TP10 := scoreOfStd 3 14 80 s3 } :=
  rfl

/-- C10: an all-zero snapshot from the backend makes `update_metrics`
render "not worn": same state change as a `MuseNotReady` dropout, EMA
accumulators zeroed, sustained-low counter reset, and no break fired. -/
theorem zero_snapshot_renders_not_worn (c : SessionCfg) (now : ℚ)
    (m : BrainMetrics) (s : SessionState) (hz : isAllZero m = true) :
    updateMetrics c now (some m) s = renderNotWorn s ∧
    updateMetrics c now (some m) s = updateMetrics c now none s ∧
    (updateMetrics c now (some m) s).focusEma = 0 ∧
    (updateMetrics c now (some m) s).fatigueEma = 0 ∧
    (updateMetrics c now (some m) s).lowSeconds = 0 ∧
    (updateMetrics c now (some m) s).breaks = s.breaks := by
  simp [updateMetrics, hz, renderNotWorn]

/-- Witness for C10: a genuine all-zero measurement on the default
session right after start. -/
theorem zero_snapshot_renders_not_worn_witness :
    isAllZero zeroMetrics = true ∧
    updateMetrics cfgDefault 5 (some zeroMetrics) sessInit = renderNotWorn sessInit ∧
    (updateMetrics cfgDefault 5 (some zeroMetrics) sessInit).breaks = sessInit.breaks := by
  have hz : isAllZero zeroMetrics = true := by
    simp [isAllZero, zeroMetrics]
  have h := zero_snapshot_renders_not_worn cfgDefault 5 zeroMetrics sessInit hz
  exact ⟨hz, h.1, h.2.2.2.2.2⟩

/-- Muse state on a worn, warmed-up, freshly-started tick (stable worn
vote, no pending grace hold, empty trailing histories). -/
def museStateC3 : MuseState :=
  ⟨[], [], ⟨true, 0, 0, 0⟩, 0, zeroMetrics, 8⟩

/-- Valid band powers (sum 1) passing the noise-sanity gate. -/
def bandsC3 : Bands := ⟨1/10, 1/5, 3/10, 1/5, 1/5⟩

/-- C3 (code bug): on a worn, accepted tick where heart rate and SpO2
are not measurable (no PPG channels, or an unavailable PPG window), the
emitted snapshot carries the integer `0` in both optional fields, never
`none` — absence is not distinguishable from a real zero, contradicting
the `BrainMetrics` documentation (`None if not available`). -/
theorem vitals_unavailable_emits_zero_not_none :
    (readTick 2 (.dataWith 4 bandsC3 .noChannels) museStateC3).1 =
      ⟨1/2, 13/35, some 0, some 0⟩ ∧
    (readTick 2 (.dataWith 4 bandsC3 .noChannels) museStateC3).1.heart_rate ≠ none ∧
    (readTick 2 (.dataWith 4 bandsC3 .noChannels) museStateC3).1.spo2 ≠ none ∧
    (readTick 2 (.dataWith 4 bandsC3 .notEnoughData) museStateC3).1.heart_rate = some 0 ∧
    (readTick 2 (.dataWith 4 bandsC3 .notEnoughData) museStateC3).1.spo2 = some 0 := by
  norm_num [readTick, museStateC3, bandsC3, voteWorn, noiseSanityGate, focusFromBands,
    fatigueFromBands, pushCap, listMean, vitals, clip01, debounceNeeded, warmupReadsNeeded,
    min_def, max_def, BrainMetrics.mk.injEq, Option.some_ne_none]

theorem graceHoldReads_two : graceHoldReads 2 = 1 := by
  norm_num [graceHoldReads, graceHoldSec, pyRound, max_def, min_def]

theorem voteWorn_true_stays (s : WornState) (h : s.lastWorn = true) :
    (voteWorn true s).lastWorn = true := by
  simp only [voteWorn]
  split_ifs <;> simp_all

/-- Band powers of the C4 scenario: `beta = 0.8`, `alpha = 0.1`,
`theta = 0.1` (delta and gamma zero; the five bands sum to 1). -/
def bandsC4 : Bands := ⟨0, 1/10, 1/10, 4/5, 0⟩

/-- C4: on a worn tick carrying band powers beta 0.8, alpha 0.1,
theta 0.1, the noise-sanity gate rejects the sample, the trailing
focus/fatigue histories receive no append (they are left empty), and
the tick's output focus equals the previously reported focus
(`_last_good.focus`), whether or not the grace hold arms. -/
theorem noise_gate_rejects_keeps_focus (s : MuseState)
    (hw : s.worn.lastWorn = true) (hg : s.graceReadsLeft = 0) :
    noiseSanityGate (1/10) (1/10) (4/5) = false ∧
    (readTick 2 (.dataWith 4 bandsC4 .noChannels) s).1.focus = s.lastGood.focus ∧
    (readTick 2 (.dataWith 4 bandsC4 .noChannels) s).2.focusHist = [] ∧
    (readTick 2 (.dataWith 4 bandsC4 .noChannels) s).2.fatigueHist = [] := by
  have hgate : noiseSanityGate (1/10) (1/10) (4/5) = false := by
    norm_num [noiseSanityGate]
  have hworn : (voteWorn true s.worn).lastWorn = true := voteWorn_true_stays s.worn hw
  by_cases hc : s.lastGood.heart_rate ≠ some 0 ∨ s.lastGood.focus ≠ 0
  · refine ⟨hgate, ?_, ?_, ?_⟩ <;>
      norm_num [readTick, bandsC4, noiseSanityGate, hworn, hg, hc, armGraceIfIdle,
        graceReturn, graceHoldReads_two]
  · push_neg at hc
    refine ⟨hgate, ?_, ?_, ?_⟩ <;>
      norm_num [readTick, bandsC4, noiseSanityGate, hworn, hg, hc.1, hc.2, armGraceIfIdle,
        graceReturn, zeroMetrics]

/-- Witness for C4 on a concrete worn state with a previously accepted
nonzero snapshot. -/
theorem noise_gate_rejects_keeps_focus_witness :
    noiseSanityGate (1/10) (1/10) (4/5) = false ∧
    (readTick 2 (.dataWith 4 bandsC4 .noChannels) museStateC3).1.focus =
      museStateC3.lastGood.focus ∧
    (readTick 2 (.dataWith 4 bandsC4 .noChannels) museStateC3).2.focusHist = [] ∧
    (readTick 2 (.dataWith 4 bandsC4 .noChannels) museStateC3).2.fatigueHist = [] :=
  noise_gate_rejects_keeps_focus museStateC3 rfl rfl

/-- Good snapshot (nonzero focus and heart rate) cached as
`_last_good` just before the C1 scenario begins. -/
def museGood : BrainMetrics := ⟨1/2, 3/10, some 70, some 98⟩

/-- Muse state immediately after `read_metrics` accepted `museGood`
(line 394-396: `_last_good = out; _grace_reads_left = 0`). -/
def museStateC1 : MuseState := ⟨[1/2], [3/10], ⟨true, 3, 0, 0⟩, 0, museGood, 8⟩

/-- State after `n` consecutive ticks whose board read fails to yield
enough data (`data is None or data.shape[1] < n`). -/
def failState (w : ℚ) (s : MuseState) : ℕ → MuseState
  | 0 => s
  | n + 1 => (readTick w .noData (failState w s n)).2

/-- Snapshot emitted on the `(n+1)`-th consecutive failing tick. -/
def failOut (w : ℚ) (s : MuseState) (n : ℕ) : BrainMetrics :=
  (readTick w .noData (failState w s n)).1

theorem failTick_fixed :
    readTick 2 ReadInput.noData museStateC1 = (museGood, museStateC1) := by
  simp [readTick, armGraceIfIdle, graceReturn, museStateC1, museGood, graceHoldReads_two]

/-- C1 (code bug): with the default `window_sec = 2.0` the hold length
is `H = 1`, yet every failing tick — the `H`-th included — replays the
last good snapshot: `read_metrics` re-arms the hold whenever it has
expired while `_last_good` is nonzero, so the output never becomes the
all-zero snapshot no matter how many read failures occur. -/
theorem grace_hold_never_expires :
    graceHoldReads 2 = 1 ∧
    (∀ n, failOut 2 museStateC1 n = museGood) ∧
    museGood ≠ zeroMetrics := by
  have hstate : ∀ n, failState 2 museStateC1 n = museStateC1 := by
    intro n
    induction n with
    | zero => rfl
    | succ k ih =>
      show (readTick 2 ReadInput.noData (failState 2 museStateC1 k)).2 = _
      rw [ih, failTick_fixed]
  refine ⟨graceHoldReads_two, fun n => ?_, ?_⟩
  · show (readTick 2 ReadInput.noData (failState 2 museStateC1 n)).1 = museGood
    rw [hstate, failTick_fixed]
  · norm_num [museGood, zeroMetrics, BrainMetrics.mk.injEq]

/-- Tick condition that is low-and-fatigued on every tick. -/
def allLow : ℕ → Bool := fun _ => true

/-- Counterexample for C2: with `grace_period_s = 120`,
`sustained_low_required_s = 25`, `cooldown_s = 480` and the
low-and-fatigued condition holding on every tick, the (single) first
break fires at `t = 144 = 120 + 25 - 1` seconds, not at
`t = 120 + 25 = 145` as claimed. -/
theorem break_fires_at_144_not_145 :
    (breakRun 120 25 480 allLow 143).breaks = 0 ∧
    (breakRun 120 25 480 allLow 144).breaks = 1 ∧
    (breakRun 120 25 480 allLow 144).lastBreakTs = 144 := by
  refine ⟨?_, ?_, ?_⟩ <;> decide

theorem breakRun_grace (lf : ℕ → Bool) :
    ∀ n, n ≤ 119 → breakRun 120 25 480 lf n = ⟨0, 0, 0⟩ := by
  intro n
  induction n with
  | zero => intro _; rfl
  | succ k ih =>
    intro hn
    show breakStep 120 25 480 (k + 1) (lf (k + 1)) (breakRun 120 25 480 lf k) = _
    rw [ih (by omega)]
    simp [breakStep, show k + 1 < 120 by omega]

theorem breakRun_144 : breakRun 120 25 480 allLow 144 = ⟨0, 144, 1⟩ := by
  decide

theorem breakRun_cooldown :
    ∀ j, j ≤ 479 → breakRun 120 25 480 allLow (144 + j) = ⟨0, 144, 1⟩ := by
  intro j
  induction j with
  | zero => intro _; exact breakRun_144
  | succ i ih =>
    intro h
    show breakStep 120 25 480 (144 + i + 1) (allLow (144 + i + 1))
      (breakRun 120 25 480 allLow (144 + i)) = _
    rw [ih (by omega)]
    simp [breakStep, allLow, show ¬144 + i + 1 < 120 by omega]
    omega

theorem breakRun_builds :
    ∀ j, j ≤ 23 → breakRun 120 25 480 allLow (624 + j) = ⟨j + 1, 144, 1⟩ := by
  intro j
  induction j with
  | zero =>
    intro _
    show breakStep 120 25 480 (623 + 1) (allLow (623 + 1))
      (breakRun 120 25 480 allLow 623) = _
    have h623 : (623 : ℕ) = 144 + 479 := by norm_num
    rw [show breakRun 120 25 480 allLow 623 = ⟨0, 144, 1⟩ from
      h623 ▸ breakRun_cooldown 479 (by norm_num)]
    simp [breakStep, allLow]
  | succ i ih =>
    intro h
    show breakStep 120 25 480 (624 + i + 1) (allLow (624 + i + 1))
      (breakRun 120 25 480 allLow (624 + i)) = _
    rw [ih (by omega)]
    simp [breakStep, allLow, show ¬624 + i + 1 < 120 by omega,
      show ¬i + 1 + 1 ≥ 25 by omega]
    omega

theorem breakRun_647 : breakRun 120 25 480 allLow 647 = ⟨24, 144, 1⟩ := by
  have h : (647 : ℕ) = 624 + 23 := by norm_num
  rw [h, breakRun_builds 23 (by norm_num)]

theorem breakRun_648 : breakRun 120 25 480 allLow 648 = ⟨0, 648, 2⟩ := by
  show breakStep 120 25 480 (647 + 1) (allLow (647 + 1))
    (breakRun 120 25 480 allLow 647) = _
  rw [breakRun_647]
  simp [breakStep, allLow]

/-- C2 amended: no break fires while `t < 120` whatever the inputs; with
the low-and-fatigued condition holding continuously from the end of
grace, exactly one break fires at `t = 120 + 25 - 1 = 144` (the 25th
tick at or after `t = 120`), and none of the ticks in the cooldown
window `(144, 144 + 480)` fires a second one — the next break lands at
`t = 648`. -/
theorem break_policy_timing_amended :
    (∀ (lf : ℕ → Bool) (n : ℕ), n ≤ 119 → (breakRun 120 25 480 lf n).breaks = 0) ∧
    (breakRun 120 25 480 allLow 143).breaks = 0 ∧
    (breakRun 120 25 480 allLow 144).breaks = 1 ∧
    (breakRun 120 25 480 allLow 623).breaks = 1 ∧
    (breakRun 120 25 480 allLow 647).breaks = 1 ∧
    (breakRun 120 25 480 allLow 648).breaks = 2 := by
  have h623 : (623 : ℕ) = 144 + 479 := by norm_num
  refine ⟨fun lf n hn => by rw [breakRun_grace lf n hn], by decide,
    by rw [breakRun_144], ?_, by rw [breakRun_647], by rw [breakRun_648]⟩
  rw [h623, breakRun_cooldown 479 (by norm_num)]

/-- Witness for C2's amended theorem at the last grace tick. -/
theorem break_policy_timing_amended_witness :
    (breakRun 120 25 480 allLow 119).breaks = 0 :=
  break_policy_timing_amended.1 allLow 119 (by norm_num)

theorem hrFreq_iff (k : ℕ) :
    ((4/5 : ℚ) ≤ rfreq 512 64 k ∧ rfreq 512 64 k ≤ 3) ↔ (7 ≤ k ∧ k ≤ 24) := by
  unfold rfreq
  push_cast
  rw [le_div_iff₀ (by norm_num : (0:ℚ) < 512), div_le_iff₀ (by norm_num : (0:ℚ) < 512)]
  constructor
  · rintro ⟨h1, h2⟩
    refine ⟨?_, ?_⟩
    · have h : (2048:ℕ) ≤ 320 * k := by exact_mod_cast (by linarith : (2048:ℚ) ≤ 320 * (k:ℚ))
      omega
    · have h : 64 * k ≤ (1536:ℕ) := by exact_mod_cast (by linarith : (64:ℚ) * (k:ℚ) ≤ 1536)
      omega
  · rintro ⟨h1, h2⟩
    have hk : (7:ℚ) ≤ (k:ℚ) := by exact_mod_cast h1
    have hk2 : (k:ℚ) ≤ 24 := by exact_mod_cast h2
    constructor
    · nlinarith
    · nlinarith

/-- Bins of the physiological band for an 8 s window sampled at 64 Hz
(`n = 512` samples): bin `k` sits at `k/8` Hz, and the mask keeps
`k = 7 .. 24` (0.875 Hz to 3.0 Hz). -/
theorem hrBandBins_eq :
    bandBins 512 64 (4/5) 3 =
      [7, 8, 9, 10, 11, 12, 13, 14, 15, 16, 17, 18, 19, 20, 21, 22, 23, 24] := by
  have hpt : ∀ n, (decide ((4/5 : ℚ) ≤ rfreq 512 64 n ∧ rfreq 512 64 n ≤ 3))
      = (decide (7 ≤ n ∧ n ≤ 24)) := by
    intro n
    rw [decide_eq_decide]
    exact hrFreq_iff n
  unfold bandBins
  rw [List.filter_congr (fun n _ => hpt n)]
  decide

/-- Candidate peak frequencies of the band for the C8 scenario. -/
theorem hrFreqs_eq :
    (bandBins 512 64 (4/5) 3).map (rfreq 512 64) =
      [7/8, 1, 9/8, 5/4, 11/8, 3/2, 13/8, 7/4, 15/8, 2,
       17/8, 9/4, 19/8, 5/2, 21/8, 11/4, 23/8, 3] := by
  rw [hrBandBins_eq]
  norm_num [rfreq]

/-- Attainable bpm values over the band bins (Python banker's rounding
of `k/8 * 60`). -/
theorem hrGrid_eq :
    (bandBins 512 64 (4/5) 3).map (fun k => pyRound (rfreq 512 64 k * 60)) =
      [52, 60, 68, 75, 82, 90, 98, 105, 112, 120,
       128, 135, 142, 150, 158, 165, 172, 180] := by
  rw [hrBandBins_eq]
  norm_num [rfreq, pyRound, -Int.self_sub_floor]

/-- Counterexample for C8: in an 8 s, 64 Hz window the spectral bins of
the physiological band sit at multiples of 1/8 Hz, so no input spectrum
can put the peak at 1.2 Hz, and 72 bpm is not among the attainable
rounded outputs (the neighbours of 72 on the grid are 68 and 75). -/
theorem hr_grid_excludes_72 :
    (6/5 : ℚ) ∉ (bandBins 512 64 (4/5) 3).map (rfreq 512 64) ∧
    (72 : ℤ) ∉ (bandBins 512 64 (4/5) 3).map (fun k => pyRound (rfreq 512 64 k * 60)) := by
  rw [hrFreqs_eq, hrGrid_eq]
  norm_num

/-- C8 amended: whatever magnitude spectrum the PPG pipeline produces,
`_estimate_hr_from_ppg` on an 8 s window at 64 Hz returns either 0 or
one of the grid values {52, 60, 68, 75, ..., 180}; in particular it can
never return 72 bpm — for a 1.2 Hz sine the candidates nearest the true
rate are 68 and 75. -/
theorem hr_estimate_never_72 (spec : ℕ → ℚ) :
    estimateHR 512 64 (4/5) 3 spec ≠ 72 ∧
    (estimateHR 512 64 (4/5) 3 spec = 0 ∨
      estimateHR 512 64 (4/5) 3 spec ∈
        ([52, 60, 68, 75, 82, 90, 98, 105, 112, 120,
          128, 135, 142, 150, 158, 165, 172, 180] : List ℤ)) := by
  have hmain : estimateHR 512 64 (4/5) 3 spec = 0 ∨
      estimateHR 512 64 (4/5) 3 spec ∈
        ([52, 60, 68, 75, 82, 90, 98, 105, 112, 120,
          128, 135, 142, 150, 158, 165, 172, 180] : List ℤ) := by
    unfold estimateHR
    rw [if_neg (by norm_num : ¬ (512 < 2 * 64))]
    rcases hm : (bandBins 512 64 (4/5) 3).argmax spec with _ | k
    · simp
    · have hk : k ∈ bandBins 512 64 (4/5) 3 := List.argmax_mem hm
      rw [hrBandBins_eq] at hk
      simp only [hm]
      fin_cases hk <;> norm_num [pyRound, rfreq, -Int.self_sub_floor]
  refine ⟨?_, hmain⟩
  rcases hmain with h | h
  · rw [h]
    norm_num
  · intro he
    rw [he] at h
    norm_num at h

end Neurotempo
